import Mathlib

/-!
Shallow embedding of the CRM mutation core (crm/schema.py, crm/models.py).

Data model: Customer, Product, Order rows live in a Store record that plays
the role of the relational entity store.  Identifiers are modelled as Nat
keys (the UUID and autoincrement primary keys of models.py), decimal prices
as exact rationals (Python Decimal arithmetic on sums is exact), and
timestamps as Nat.

Python exceptions are modelled with an explicit error channel: a mutation
that can let an exception escape returns a value in Except PyError.
-/

structure Customer where
  id : Nat
  name : String
  email : String
  phone : Option String
deriving DecidableEq

structure Product where
  id : Nat
  name : String
  price : ℚ
  stock : Int
deriving DecidableEq

structure Order where
  id : Nat
  customerId : Nat
  productIds : List Nat
  totalAmount : ℚ
  orderDate : Nat
deriving DecidableEq

/-- The entity store: the three tables of crm/models.py. -/
structure Store where
  customers : List Customer
  products : List Product
  orders : List Order
deriving DecidableEq

/-- A Python exception escaping a mutation. -/
inductive PyError where
  | nameError (msg : String)
deriving DecidableEq

/-- Matcher for the body of the phone pattern after the optional leading
plus sign: an optional leading one followed by 9 to 15 digits, anchored at
both ends (regex fragment 1?\d{9,15}$, with backtracking semantics). -/
def phoneCore (cs : List Char) : Bool :=
  (cs.all Char.isDigit && decide (9 ≤ cs.length) && decide (cs.length ≤ 15))
  || (match cs with
      | '1' :: rest =>
        rest.all Char.isDigit && decide (9 ≤ rest.length) && decide (rest.length ≤ 15)
      | _ => false)

/-- The phone_validator regex of crm/schema.py: ^\+?1?\d{9,15}$ . -/
def phoneMatches (s : String) : Bool :=
  match s.toList with
  | '+' :: rest => phoneCore rest
  | cs => phoneCore cs

/-- Python truthiness of an optional string argument (if phone: ...). -/
def truthy : Option String → Bool
  | none => false
  | some s => decide (s ≠ "")

namespace CreateCustomer

/-- Output payload of the CreateCustomer mutation. -/
structure Payload where
  customer : Option Customer
  message : String
deriving DecidableEq

/-- CreateCustomer.mutate of crm/schema.py.

The store is threaded explicitly; newId is the primary key the store
assigns to a created row.  The phone-mismatch branch is the faithful image
of the source: phone_validator raises ValidationError, and the handler
clause names ValidationError, which is not imported anywhere in
crm/schema.py, so evaluating the except clause raises NameError and the
mutation lets an exception escape instead of returning a payload. -/
def mutate (s : Store) (newId : Nat) (name email : String)
    (phone : Option String) : Store × Except PyError Payload :=
  if s.customers.any (fun c => decide (c.email = email)) then
    (s, .ok ⟨none, "Error: Customer with email " ++ email ++ " already exists."⟩)
  else if truthy phone then
    if phoneMatches (phone.getD "") then
      let c : Customer := ⟨newId, name, email, phone⟩
      ({s with customers := s.customers ++ [c]},
       .ok ⟨some c, "Customer created successfully!"⟩)
    else
      (s, .error (.nameError "name ValidationError is not defined"))
  else
    let c : Customer := ⟨newId, name, email, phone⟩
    ({s with customers := s.customers ++ [c]},
     .ok ⟨some c, "Customer created successfully!"⟩)

end CreateCustomer

namespace CreateProduct

/-- Output payload of the CreateProduct mutation. -/
structure Payload where
  product : Option Product
  message : String
deriving DecidableEq

/-- CreateProduct.mutate of crm/schema.py.

In the source, stock defaults to 0 when the caller omits it; callers of
this embedding pass 0 for an omitted stock.  Product.objects.create can
raise, and the source catches any exception and surfaces it as a Database
Error message; dbFail models that environment-chosen outcome: none means
the insert succeeds, some detail means it raises with that detail. -/
def mutate (s : Store) (newId : Nat) (dbFail : Option String)
    (name : String) (price : ℚ) (stock : Int) : Store × Payload :=
  if price ≤ 0 then
    (s, ⟨none, "Error: Price must be a positive number."⟩)
  else if stock < 0 then
    (s, ⟨none, "Error: Stock cannot be negative."⟩)
  else
    match dbFail with
    | some detail => (s, ⟨none, "Database Error: " ++ detail⟩)
    | none =>
      let p : Product := ⟨newId, name, price, stock⟩
      ({s with products := s.products ++ [p]},
       ⟨some p, "Product created successfully!"⟩)

end CreateProduct

/-- The CustomerInput input object of crm/schema.py: name and email are
required strings, phone is optional. -/
structure CustomerInput where
  name : String
  email : String
  phone : Option String
deriving DecidableEq

namespace BulkCreateCustomers

/-- Output payload of the BulkCreateCustomers mutation. -/
structure Payload where
  customers : List Customer
  errors : List String
deriving DecidableEq

/-- The loop body of BulkCreateCustomers.mutate, processing the records
from index i onwards.  The store is updated immediately after each insert,
as the source does inside a single transaction on one connection, so the
existence check of a later record sees the inserts of earlier records of
the same batch. -/
def bulkGo (s : Store) (nid i : Nat) :
    List CustomerInput → Store × List Customer × List String
  | [] => (s, [], [])
  | d :: rest =>
    if d.name = "" then
      let r := bulkGo s nid (i + 1) rest
      (r.1, r.2.1, ("Record " ++ toString i ++ ": Name is required.") :: r.2.2)
    else if s.customers.any (fun c => decide (c.email = d.email)) then
      let r := bulkGo s nid (i + 1) rest
      (r.1, r.2.1,
       ("Record " ++ toString i ++ ": Customer with email " ++ d.email
         ++ " already exists.") :: r.2.2)
    else
      let c : Customer := ⟨nid, d.name, d.email, d.phone⟩
      let r := bulkGo {s with customers := s.customers ++ [c]} (nid + 1) (i + 1) rest
      (r.1, c :: r.2.1, r.2.2)

/-- BulkCreateCustomers.mutate of crm/schema.py: run the loop from
record index 0 and package the created customers and error strings. -/
def mutate (s : Store) (nid : Nat) (customers_data : List CustomerInput) :
    Store × Payload :=
  let r := bulkGo s nid 0 customers_data
  (r.1, ⟨r.2.1, r.2.2⟩)

end BulkCreateCustomers

/-- Customer.objects.get by primary key. -/
def customerGet (s : Store) (pk : Nat) : Option Customer :=
  s.customers.find? (fun c => decide (c.id = pk))

/-- Product.objects.filter with an id__in lookup: every stored row whose
id occurs in the requested list, each row once, in table order. -/
def productsFilterIdIn (s : Store) (ids : List Nat) : List Product :=
  s.products.filter (fun p => decide (p.id ∈ ids))

namespace CreateOrder

/-- Output payload of the CreateOrder mutation. -/
structure Payload where
  order : Option Order
  message : String
deriving DecidableEq

/-- CreateOrder.mutate of crm/schema.py.

now is the creation timestamp the store assigns and newId the primary key
of a created row.  The stored order_date is always now: the Order model of
crm/models.py declares order_date with auto_now_add set to true, and under
that declaration the store overwrites whatever value the mutation passes
for order_date with the creation time, so the order_date argument below is
accepted and then discarded on insert. -/
def mutate (s : Store) (now newId : Nat) (customer_id : Nat)
    (product_ids : List Nat) (order_date : Option Nat) : Store × Payload :=
  match customerGet s customer_id with
  | none =>
    (s, ⟨none, "Error: Customer ID " ++ toString customer_id ++ " not found."⟩)
  | some customer =>
    if product_ids.isEmpty then
      (s, ⟨none, "Error: Order must contain at least one product."⟩)
    else
      let products := productsFilterIdIn s product_ids
      if products.length ≠ product_ids.length then
        (s, ⟨none, "Error: One or more product IDs were invalid."⟩)
      else
        let total_amount := (products.map Product.price).sum
        let order : Order :=
          { id := newId
            customerId := customer.id
            productIds := products.map Product.id
            totalAmount := total_amount
            orderDate := now }
        ({s with orders := s.orders ++ [order]},
         ⟨some order, "Order created successfully with calculated total."⟩)

end CreateOrder

/-- The email-uniqueness invariant: no two stored Customers share an
email (models.py declares Customer.email unique). -/
def emailsUnique (s : Store) : Prop :=
  (s.customers.map Customer.email).Nodup

instance (s : Store) : Decidable (emailsUnique s) := by
  unfold emailsUnique; infer_instance

/-! Sample rows used for concrete evaluations of the mutations. -/

def sampleCustomer : Customer := ⟨1, "Alice", "alice@example.com", none⟩

def sampleProductA : Product := ⟨10, "Widget", 5, 3⟩

def sampleProductB : Product := ⟨11, "Gadget", 7, 1⟩

def sampleStore : Store := ⟨[sampleCustomer], [sampleProductA, sampleProductB], []⟩

/-! Helper lemmas about the id__in fetch of CreateOrder. -/

lemma nodup_map_id_productsFilterIdIn (s : Store) (ids : List Nat)
    (h : (s.products.map Product.id).Nodup) :
    ((productsFilterIdIn s ids).map Product.id).Nodup :=
  ((List.filter_sublist s.products).map Product.id).nodup h

lemma mem_map_id_productsFilterIdIn {s : Store} {ids : List Nat} {x : Nat} :
    x ∈ (productsFilterIdIn s ids).map Product.id ↔
      (∃ p ∈ s.products, p.id = x) ∧ x ∈ ids := by
  constructor
  · intro hx
    rcases List.mem_map.mp hx with ⟨p, hp, rfl⟩
    rcases List.mem_filter.mp hp with ⟨hps, hpin⟩
    exact ⟨⟨p, hps, rfl⟩, of_decide_eq_true hpin⟩
  · rintro ⟨⟨p, hps, rfl⟩, hin⟩
    exact List.mem_map.mpr
      ⟨p, List.mem_filter.mpr ⟨hps, decide_eq_true hin⟩, rfl⟩

/-- If some requested id resolves to no stored product, the fetch returns
strictly fewer rows than the request lists ids. -/
lemma length_productsFilterIdIn_lt_of_absent (s : Store) (ids : List Nat)
    (hnodup : (s.products.map Product.id).Nodup)
    (pid : Nat) (hmem : pid ∈ ids)
    (habsent : ∀ p ∈ s.products, p.id ≠ pid) :
    (productsFilterIdIn s ids).length < ids.length := by
  have hmap : (productsFilterIdIn s ids).length
      = ((productsFilterIdIn s ids).map Product.id).length :=
    (List.length_map _ _).symm
  have hsub : (productsFilterIdIn s ids).map Product.id
      ⊆ ids.filter (fun x => decide (x ≠ pid)) := by
    intro x hx
    rcases mem_map_id_productsFilterIdIn.mp hx with ⟨⟨p, hps, rfl⟩, hin⟩
    exact List.mem_filter.mpr ⟨hin, decide_eq_true (habsent p hps)⟩
  have hle := (List.subperm_of_subset
    (nodup_map_id_productsFilterIdIn s ids hnodup) hsub).length_le
  have hlt : (ids.filter (fun x => decide (x ≠ pid))).length < ids.length :=
    List.length_filter_lt_length_iff_exists.mpr ⟨pid, hmem, by simp⟩
  omega

/-- The fetch never returns more rows than there are distinct requested
ids. -/
lemma length_productsFilterIdIn_le_dedup (s : Store) (ids : List Nat)
    (hnodup : (s.products.map Product.id).Nodup) :
    (productsFilterIdIn s ids).length ≤ ids.dedup.length := by
  have hmap : (productsFilterIdIn s ids).length
      = ((productsFilterIdIn s ids).map Product.id).length :=
    (List.length_map _ _).symm
  have hsub : (productsFilterIdIn s ids).map Product.id ⊆ ids.dedup := by
    intro x hx
    exact List.mem_dedup.mpr (mem_map_id_productsFilterIdIn.mp hx).2
  have hle := (List.subperm_of_subset
    (nodup_map_id_productsFilterIdIn s ids hnodup) hsub).length_le
  omega

/-- A list with a repeated element has strictly fewer distinct elements
than elements. -/
lemma length_dedup_lt_of_not_nodup {l : List Nat} (h : ¬ l.Nodup) :
    l.dedup.length < l.length := by
  have hsub := List.dedup_sublist l
  rcases lt_or_eq_of_le hsub.length_le with hlt | heq
  · exact hlt
  · exact absurd (hsub.eq_of_length heq ▸ l.nodup_dedup) h

/-! Helper lemmas about CreateCustomer and BulkCreateCustomers. -/

lemma emailsUnique_append (s : Store) (c : Customer)
    (h : emailsUnique s)
    (hfresh : s.customers.any (fun x => decide (x.email = c.email)) = false) :
    emailsUnique {s with customers := s.customers ++ [c]} := by
  unfold emailsUnique at h ⊢
  rw [List.map_append, List.nodup_append]
  refine ⟨h, List.nodup_singleton _, ?_⟩
  intro x hx hx2
  rcases List.mem_map.mp hx with ⟨y, hy, hye⟩
  have hne := List.any_eq_false.mp hfresh y hy
  simp only [List.map_singleton, List.mem_singleton] at hx2
  subst hx2
  simp only [decide_eq_true_eq] at hne
  exact hne hye

lemma createCustomer_fst_emailsUnique (s : Store) (nid : Nat)
    (name email : String) (phone : Option String) (h : emailsUnique s) :
    emailsUnique (CreateCustomer.mutate s nid name email phone).1 := by
  unfold CreateCustomer.mutate
  by_cases h1 : s.customers.any (fun c => decide (c.email = email)) = true
  · rw [if_pos h1]
    exact h
  · rw [if_neg h1]
    have hf := Bool.eq_false_iff.mpr h1
    by_cases h2 : truthy phone = true
    · rw [if_pos h2]
      by_cases h3 : phoneMatches (phone.getD "") = true
      · rw [if_pos h3]
        exact emailsUnique_append s ⟨nid, name, email, phone⟩ h hf
      · rw [if_neg h3]
        exact h
    · rw [if_neg h2]
      exact emailsUnique_append s ⟨nid, name, email, phone⟩ h hf

lemma bulkGo_fst_emailsUnique (data : List CustomerInput) :
    ∀ s nid i, emailsUnique s →
      emailsUnique (BulkCreateCustomers.bulkGo s nid i data).1 := by
  induction data with
  | nil => intro s nid i h; exact h
  | cons d rest ih =>
    intro s nid i h
    unfold BulkCreateCustomers.bulkGo
    by_cases h1 : d.name = ""
    · rw [if_pos h1]
      exact ih s nid (i + 1) h
    · rw [if_neg h1]
      by_cases h2 : s.customers.any (fun c => decide (c.email = d.email)) = true
      · rw [if_pos h2]
        exact ih s nid (i + 1) h
      · rw [if_neg h2]
        exact ih _ (nid + 1) (i + 1)
          (emailsUnique_append s ⟨nid, d.name, d.email, d.phone⟩ h
            (Bool.eq_false_iff.mpr h2))

lemma bulkGo_dup_in_batch (s : Store) (nid i : Nat) (n1 n2 e : String)
    (ph1 ph2 : Option String) (rest : List CustomerInput)
    (hn1 : n1 ≠ "") (hn2 : n2 ≠ "")
    (hfresh : ∀ c ∈ s.customers, c.email ≠ e) :
    (BulkCreateCustomers.bulkGo s nid i
        (⟨n1, e, ph1⟩ :: ⟨n2, e, ph2⟩ :: rest)).2.2.head?
      = some ("Record " ++ toString (i + 1) ++ ": Customer with email " ++ e
          ++ " already exists.")
    ∧ (BulkCreateCustomers.bulkGo s nid i
        (⟨n1, e, ph1⟩ :: ⟨n2, e, ph2⟩ :: rest)).2.1.head?
      = some ⟨nid, n1, e, ph1⟩ := by
  have hany : (s.customers.any fun c => decide (c.email = e)) = false := by
    simp only [List.any_eq_false]
    intro x hx
    simpa using hfresh x hx
  simp [BulkCreateCustomers.bulkGo, hn1, hn2, hany]

/-- When every requested id resolves and the request has no repeats, the
fetch returns exactly one row per requested id. -/
lemma length_productsFilterIdIn_eq (s : Store) (ids : List Nat)
    (hnodup : (s.products.map Product.id).Nodup)
    (hids : ids.Nodup)
    (hresolve : ∀ pid ∈ ids, ∃ p ∈ s.products, p.id = pid) :
    (productsFilterIdIn s ids).length = ids.length := by
  have hmap : (productsFilterIdIn s ids).length
      = ((productsFilterIdIn s ids).map Product.id).length :=
    (List.length_map _ _).symm
  have hsub1 : (productsFilterIdIn s ids).map Product.id ⊆ ids :=
    fun x hx => (mem_map_id_productsFilterIdIn.mp hx).2
  have hsub2 : ids ⊆ (productsFilterIdIn s ids).map Product.id := by
    intro x hx
    exact mem_map_id_productsFilterIdIn.mpr ⟨hresolve x hx, hx⟩
  have h1 := (List.subperm_of_subset
    (nodup_map_id_productsFilterIdIn s ids hnodup) hsub1).length_le
  have h2 := (List.subperm_of_subset hids hsub2).length_le
  omega

/-! Claim theorems. -/

/-- Claim C1, counterexample to the claim as stated: with a resolving
customer id and product_ids equal to the duplicated id list of an existing
product, CreateOrder does not succeed with a deduplicated total; it
returns a null order and the invalid-product-ids message, because the
fetch returns one row while the request lists two ids. -/
theorem C1_duplicate_ids_counterexample :
    customerGet sampleStore 1 = some sampleCustomer
    ∧ sampleProductA ∈ sampleStore.products ∧ sampleProductA.id = 10
    ∧ (CreateOrder.mutate sampleStore 99 50 1 [10, 10] none).2.order = none
    ∧ (CreateOrder.mutate sampleStore 99 50 1 [10, 10] none).2.message
        = "Error: One or more product IDs were invalid." :=
  ⟨rfl, by decide, rfl, rfl, rfl⟩

/-- Claim C1, amended: for every order-creation request whose product_ids
contains a duplicated id of an existing product and whose customer_id
resolves, the duplicates resolve to a single fetched product, so the
fetched count is smaller than the request length and CreateOrder fails
with the invalid-product-ids message and an unchanged store, instead of
succeeding with a deduplicated total. -/
theorem C1_duplicate_ids_rejected (s : Store) (now nid cid : Nat)
    (pids : List Nat) (odate : Option Nat) (c : Customer)
    (hnodup : (s.products.map Product.id).Nodup)
    (hcust : customerGet s cid = some c)
    (pid : Nat) (hdup : 2 ≤ pids.count pid)
    (hp : ∃ p ∈ s.products, p.id = pid) :
    CreateOrder.mutate s now nid cid pids odate
      = (s, ⟨none, "Error: One or more product IDs were invalid."⟩) := by
  have hnn : ¬ pids.Nodup := by
    intro h
    have := List.nodup_iff_count_le_one.mp h pid
    omega
  have hd := length_dedup_lt_of_not_nodup hnn
  have hle := length_productsFilterIdIn_le_dedup s pids hnodup
  have hmem : pid ∈ pids := by
    by_contra hno
    rw [List.count_eq_zero_of_not_mem hno] at hdup
    omega
  have hemp : pids.isEmpty = false := by
    cases pids with
    | nil => cases hmem
    | cons a t => rfl
  unfold CreateOrder.mutate
  rw [hcust]
  simp only [hemp, Bool.false_eq_true, if_false]
  rw [if_pos (by omega)]

/-- Claim C1 witness: the amended theorem applied to a concrete store and
the request listing one existing product id twice. -/
theorem C1_duplicate_ids_rejected_witness :
    2 ≤ ([10, 10] : List Nat).count 10
    ∧ (∃ p ∈ sampleStore.products, p.id = 10)
    ∧ CreateOrder.mutate sampleStore 99 50 1 [10, 10] none
        = (sampleStore, ⟨none, "Error: One or more product IDs were invalid."⟩) :=
  ⟨by decide, by decide,
    C1_duplicate_ids_rejected sampleStore 99 50 1 [10, 10] none sampleCustomer
      (by decide) rfl 10 (by decide) (by decide)⟩

/-- Claim C2: contrary to the claim that CreateCustomer never raises, an
invalid phone makes it raise.  phone_validator raises ValidationError, and
the except clause of crm/schema.py names ValidationError without importing
it, so a NameError escapes instead of the payload with the
phone-invalid message; the conjuncts record that the phone fails the
pattern and that the mutation result is the raised exception. -/
theorem C2_invalid_phone_raises :
    phoneMatches ("not-a-phone") = false
    ∧ (CreateCustomer.mutate sampleStore 2 ("Bob") ("bob@example.com")
        (some "not-a-phone")).2
      = .error (.nameError "name ValidationError is not defined") :=
  ⟨rfl, rfl⟩

/-- Claim C3: contrary to the claim that a supplied order_date is
persisted, the stored order_date of a successfully created Order is the
creation time (here 99), not the supplied value (here 5), because
crm/models.py declares Order.order_date with auto_now_add, which
overwrites the value passed by CreateOrder.mutate on insert. -/
theorem C3_supplied_order_date_ignored :
    (CreateOrder.mutate sampleStore 99 50 1 [10] (some 5)).2.order.isSome = true
    ∧ (CreateOrder.mutate sampleStore 99 50 1 [10] (some 5)).2.order.map
        Order.orderDate = some 99
    ∧ (5 : Nat) ≠ 99 :=
  ⟨rfl, rfl, by decide⟩

/-- Claim C4: when the customer resolves but at least one requested
product id matches no stored product, CreateOrder returns a null order
with the invalid-product-ids message and leaves the store unchanged, so no
Order row and no product links are persisted. -/
theorem C4_invalid_product_id_fails (s : Store) (now nid cid : Nat)
    (pids : List Nat) (odate : Option Nat)
    (c : Customer) (hnodup : (s.products.map Product.id).Nodup)
    (hcust : customerGet s cid = some c)
    (pid : Nat) (hmem : pid ∈ pids)
    (habsent : ∀ p ∈ s.products, p.id ≠ pid) :
    CreateOrder.mutate s now nid cid pids odate
      = (s, ⟨none, "Error: One or more product IDs were invalid."⟩) := by
  have hlt := length_productsFilterIdIn_lt_of_absent s pids hnodup pid hmem habsent
  have hne : pids.isEmpty = false := by
    cases pids with
    | nil => cases hmem
    | cons a t => rfl
  unfold CreateOrder.mutate
  rw [hcust]
  simp only [hne, Bool.false_eq_true, if_false]
  rw [if_pos (by omega)]

/-- Claim C4 witness: one valid id (10) and one nonexistent id (12). -/
theorem C4_invalid_product_id_fails_witness :
    customerGet sampleStore 1 = some sampleCustomer
    ∧ 12 ∈ ([10, 12] : List Nat)
    ∧ (∀ p ∈ sampleStore.products, p.id ≠ 12)
    ∧ CreateOrder.mutate sampleStore 99 50 1 [10, 12] none
        = (sampleStore, ⟨none, "Error: One or more product IDs were invalid."⟩) :=
  ⟨rfl, by decide, by decide,
    C4_invalid_product_id_fails sampleStore 99 50 1 [10, 12] none sampleCustomer
      (by decide) rfl 12 (by decide) (by decide)⟩

/-- Claim C5: with an existing customer and a non-empty list of distinct
product ids that all resolve, CreateOrder appends exactly one Order to the
store and returns it with the success message; the order references the
customer, is linked to exactly the requested products, and its
total_amount is the exact sum of the resolved products prices. -/
theorem C5_create_order_success (s : Store) (now nid cid : Nat)
    (pids : List Nat) (odate : Option Nat) (c : Customer)
    (hnodup : (s.products.map Product.id).Nodup)
    (hcust : customerGet s cid = some c)
    (hne : pids ≠ [])
    (hpnodup : pids.Nodup)
    (hresolve : ∀ pid ∈ pids, ∃ p ∈ s.products, p.id = pid) :
    ∃ o : Order,
      CreateOrder.mutate s now nid cid pids odate
        = ({s with orders := s.orders ++ [o]},
           ⟨some o, "Order created successfully with calculated total."⟩)
      ∧ o.customerId = c.id
      ∧ o.totalAmount = ((productsFilterIdIn s pids).map Product.price).sum
      ∧ (∀ x, x ∈ o.productIds ↔ x ∈ pids) := by
  have hlen := length_productsFilterIdIn_eq s pids hnodup hpnodup hresolve
  have hemp : pids.isEmpty = false := by
    cases pids with
    | nil => exact absurd rfl hne
    | cons a t => rfl
  refine ⟨⟨nid, c.id, (productsFilterIdIn s pids).map Product.id,
      ((productsFilterIdIn s pids).map Product.price).sum, now⟩, ?_, rfl, rfl, ?_⟩
  · unfold CreateOrder.mutate
    rw [hcust]
    simp only [hemp, Bool.false_eq_true, if_false]
    rw [if_neg (by omega)]
  · intro x
    rw [mem_map_id_productsFilterIdIn]
    constructor
    · exact fun h => h.2
    · exact fun h => ⟨hresolve x h, h⟩

/-- Claim C5 witness: both stored products, requested by their two
distinct ids, for the one stored customer. -/
theorem C5_create_order_success_witness :
    ∃ o : Order,
      CreateOrder.mutate sampleStore 99 50 1 [10, 11] none
        = ({sampleStore with orders := sampleStore.orders ++ [o]},
           ⟨some o, "Order created successfully with calculated total."⟩)
      ∧ o.customerId = sampleCustomer.id
      ∧ o.totalAmount
          = ((productsFilterIdIn sampleStore [10, 11]).map Product.price).sum
      ∧ (∀ x, x ∈ o.productIds ↔ x ∈ ([10, 11] : List Nat)) :=
  C5_create_order_success sampleStore 99 50 1 [10, 11] none sampleCustomer
    (by decide) rfl (by decide) (by decide) (by decide)

/-- Claim C6: BulkCreateCustomers processes records in input order; for a
batch of three records where record 0 has an empty name, record 1 carries
the email of an existing customer, and record 2 is valid with a fresh
email, the result is exactly one created customer (record 2) and the two
error strings indexed Record 0 and Record 1. -/
theorem C6_bulk_three_records (s : Store) (nid : Nat)
    (e0 n1 e1 n2 e2 : String) (p0 p1o p2o : Option String)
    (c : Customer) (hc : c ∈ s.customers) (he : c.email = e1)
    (hn1 : n1 ≠ "") (hn2 : n2 ≠ "")
    (hfresh : ∀ x ∈ s.customers, x.email ≠ e2) :
    BulkCreateCustomers.mutate s nid [⟨"", e0, p0⟩, ⟨n1, e1, p1o⟩, ⟨n2, e2, p2o⟩]
      = ({s with customers := s.customers ++ [⟨nid, n2, e2, p2o⟩]},
         ⟨[⟨nid, n2, e2, p2o⟩],
          ["Record 0: Name is required.",
           "Record 1: Customer with email " ++ e1 ++ " already exists."]⟩) := by
  have hany1 : (s.customers.any fun x => decide (x.email = e1)) = true :=
    List.any_eq_true.mpr ⟨c, hc, decide_eq_true he⟩
  have hany2 : (s.customers.any fun x => decide (x.email = e2)) = false := by
    simp only [List.any_eq_false]
    intro x hx
    simpa using hfresh x hx
  simp [BulkCreateCustomers.mutate, BulkCreateCustomers.bulkGo, hn1, hn2,
    hany1, hany2]
  exact ⟨rfl, rfl⟩

/-- Claim C6 witness: a concrete three-record batch against the sample
store, whose one existing customer has the email of record 1. -/
theorem C6_bulk_three_records_witness :
    BulkCreateCustomers.mutate sampleStore 2
      [⟨"", "x@example.com", none⟩, ⟨"Bob", "alice@example.com", none⟩,
       ⟨"Carol", "carol@example.com", none⟩]
      = ({sampleStore with customers := sampleStore.customers
            ++ [⟨2, "Carol", "carol@example.com", none⟩]},
         ⟨[⟨2, "Carol", "carol@example.com", none⟩],
          ["Record 0: Name is required.",
           "Record 1: Customer with email alice@example.com already exists."]⟩) :=
  C6_bulk_three_records sampleStore 2 ("x@example.com") ("Bob")
    ("alice@example.com") ("Carol") ("carol@example.com") none none none
    sampleCustomer (by decide) rfl (by decide) (by decide) (by decide)

/-- Claim C7: CreateProduct fails with the price message when price is not
positive, else fails with the stock message when stock is negative, else
surfaces a persistence failure as a Database Error message with a null
product, and otherwise appends and returns a product whose price and
stock equal the inputs (an omitted stock is the source default 0, covered
by instantiating stock with 0). -/
theorem C7_create_product_branches (s : Store) (nid : Nat)
    (dbFail : Option String) (name : String) (price : ℚ) (stock : Int) :
    (price ≤ 0 → CreateProduct.mutate s nid dbFail name price stock
        = (s, ⟨none, "Error: Price must be a positive number."⟩))
    ∧ (0 < price → stock < 0 → CreateProduct.mutate s nid dbFail name price stock
        = (s, ⟨none, "Error: Stock cannot be negative."⟩))
    ∧ (∀ detail, 0 < price → 0 ≤ stock → dbFail = some detail →
        CreateProduct.mutate s nid dbFail name price stock
          = (s, ⟨none, "Database Error: " ++ detail⟩))
    ∧ (0 < price → 0 ≤ stock → dbFail = none →
        CreateProduct.mutate s nid dbFail name price stock
          = ({s with products := s.products ++ [⟨nid, name, price, stock⟩]},
             ⟨some ⟨nid, name, price, stock⟩, "Product created successfully!"⟩)) := by
  refine ⟨?_, ?_, ?_, ?_⟩
  · intro h
    unfold CreateProduct.mutate
    rw [if_pos h]
  · intro h1 h2
    unfold CreateProduct.mutate
    rw [if_neg (not_le.mpr h1), if_pos h2]
  · intro detail h1 h2 h3
    subst h3
    unfold CreateProduct.mutate
    rw [if_neg (not_le.mpr h1), if_neg (not_lt.mpr h2)]
  · intro h1 h2 h3
    subst h3
    unfold CreateProduct.mutate
    rw [if_neg (not_le.mpr h1), if_neg (not_lt.mpr h2)]

/-- Claim C7 witness: the success branch at price 5 and stock 3 with a
healthy store. -/
theorem C7_create_product_branches_witness :
    (0 : ℚ) < 5 ∧ (0 : Int) ≤ 3
    ∧ CreateProduct.mutate sampleStore 20 none ("Thing") 5 3
        = ({sampleStore with products := sampleStore.products
              ++ [⟨20, "Thing", 5, 3⟩]},
           ⟨some ⟨20, "Thing", 5, 3⟩, "Product created successfully!"⟩) :=
  ⟨by decide, by decide,
    (C7_create_product_branches sampleStore 20 none ("Thing") 5 3).2.2.2
      (by decide) (by decide) rfl⟩

/-- Claim C8: when the requested email already belongs to a stored
customer, CreateCustomer returns a null customer with the already-exists
message and an unchanged store, for every phone argument, valid or not:
the duplicate check runs before phone validation. -/
theorem C8_duplicate_email_rejected (s : Store) (nid : Nat)
    (name email : String) (phone : Option String)
    (c : Customer) (hc : c ∈ s.customers) (he : c.email = email) :
    CreateCustomer.mutate s nid name email phone
      = (s, .ok ⟨none, "Error: Customer with email " ++ email
          ++ " already exists."⟩) := by
  have hany : s.customers.any (fun x => decide (x.email = email)) = true :=
    List.any_eq_true.mpr ⟨c, hc, decide_eq_true he⟩
  unfold CreateCustomer.mutate
  rw [if_pos hany]

/-- Claim C8 witness: duplicating the sample customers email while
passing a phone that the validator would reject; the duplicate message
still wins and the store is unchanged. -/
theorem C8_duplicate_email_rejected_witness :
    sampleCustomer ∈ sampleStore.customers
    ∧ sampleCustomer.email = "alice@example.com"
    ∧ phoneMatches ("not-a-phone") = false
    ∧ CreateCustomer.mutate sampleStore 2 ("Dup") ("alice@example.com")
        (some "not-a-phone")
      = (sampleStore, .ok ⟨none,
          "Error: Customer with email alice@example.com already exists."⟩) :=
  ⟨by decide, rfl, rfl,
    C8_duplicate_email_rejected sampleStore 2 ("Dup") ("alice@example.com")
      (some "not-a-phone") sampleCustomer (by decide) rfl⟩

/-- Claim C9: email uniqueness is an invariant.  First conjunct:
CreateCustomer preserves it.  Second conjunct: BulkCreateCustomers
preserves it.  Third conjunct: within one batch, a later record whose
email equals that of a record created earlier in the same batch fails
with the already-exists error for its index while the earlier record is
created, rather than a second customer with that email being created. -/
theorem C9_email_uniqueness_preserved :
    (∀ s nid name email phone, emailsUnique s →
        emailsUnique (CreateCustomer.mutate s nid name email phone).1)
    ∧ (∀ s nid data, emailsUnique s →
        emailsUnique (BulkCreateCustomers.mutate s nid data).1)
    ∧ (∀ s nid i n1 n2 e ph1 ph2 rest, n1 ≠ "" → n2 ≠ "" →
        (∀ c ∈ s.customers, c.email ≠ e) →
        (BulkCreateCustomers.bulkGo s nid i
            (⟨n1, e, ph1⟩ :: ⟨n2, e, ph2⟩ :: rest)).2.2.head?
          = some ("Record " ++ toString (i + 1) ++ ": Customer with email "
              ++ e ++ " already exists.")
        ∧ (BulkCreateCustomers.bulkGo s nid i
            (⟨n1, e, ph1⟩ :: ⟨n2, e, ph2⟩ :: rest)).2.1.head?
          = some ⟨nid, n1, e, ph1⟩) :=
  ⟨fun s nid name email phone h =>
      createCustomer_fst_emailsUnique s nid name email phone h,
    fun s nid data h => bulkGo_fst_emailsUnique data s nid 0 h,
    fun s nid i n1 n2 e ph1 ph2 rest hn1 hn2 hfresh =>
      bulkGo_dup_in_batch s nid i n1 n2 e ph1 ph2 rest hn1 hn2 hfresh⟩

/-- Claim C9 witness: the invariant after a create and after a bulk run,
and the in-batch duplicate outcome, all at concrete inputs. -/
theorem C9_email_uniqueness_preserved_witness :
    emailsUnique (CreateCustomer.mutate sampleStore 2 ("Bob")
      ("bob@example.com") none).1
    ∧ emailsUnique (BulkCreateCustomers.mutate sampleStore 2
        [⟨"Bob", "b@example.com", none⟩, ⟨"Carol", "b@example.com", none⟩]).1
    ∧ (BulkCreateCustomers.bulkGo sampleStore 2 0
        [⟨"Bob", "b@example.com", none⟩, ⟨"Carol", "b@example.com", none⟩]).2.2.head?
      = some ("Record 1: Customer with email b@example.com already exists.")
    ∧ (BulkCreateCustomers.bulkGo sampleStore 2 0
        [⟨"Bob", "b@example.com", none⟩, ⟨"Carol", "b@example.com", none⟩]).2.1.head?
      = some ⟨2, "Bob", "b@example.com", none⟩ :=
  ⟨C9_email_uniqueness_preserved.1 sampleStore 2 ("Bob") ("bob@example.com")
      none (by decide),
    C9_email_uniqueness_preserved.2.1 sampleStore 2
      [⟨"Bob", "b@example.com", none⟩, ⟨"Carol", "b@example.com", none⟩]
      (by decide),
    (C9_email_uniqueness_preserved.2.2 sampleStore 2 0 ("Bob") ("Carol")
      ("b@example.com") none none [] (by decide) (by decide) (by decide)).1,
    (C9_email_uniqueness_preserved.2.2 sampleStore 2 0 ("Bob") ("Carol")
      ("b@example.com") none none [] (by decide) (by decide) (by decide)).2⟩

/-- Claim C10: BulkCreateCustomers performs no phone-format validation: a
record with a non-empty name and an email not yet in the store is created
with its phone stored verbatim even when that phone fails the pattern
CreateCustomer validates against. -/
theorem C10_bulk_skips_phone_check (s : Store) (nid i : Nat)
    (name email ph : String) (rest : List CustomerInput)
    (hname : name ≠ "")
    (hfresh : ∀ c ∈ s.customers, c.email ≠ email)
    (hph : phoneMatches ph = false) :
    (BulkCreateCustomers.bulkGo s nid i
        (⟨name, email, some ph⟩ :: rest)).2.1.head?
      = some ⟨nid, name, email, some ph⟩ := by
  have hany : (s.customers.any fun c => decide (c.email = email)) = false := by
    simp only [List.any_eq_false]
    intro x hx
    simpa using hfresh x hx
  simp [BulkCreateCustomers.bulkGo, hname, hany]

/-- Claim C10 witness: a phone string rejected by the pattern is stored
verbatim by the bulk mutation. -/
theorem C10_bulk_skips_phone_check_witness :
    phoneMatches ("not-a-phone") = false
    ∧ (BulkCreateCustomers.bulkGo sampleStore 2 0
        [⟨"Bob", "bob@example.com", some "not-a-phone"⟩]).2.1.head?
      = some ⟨2, "Bob", "bob@example.com", some "not-a-phone"⟩ :=
  ⟨rfl,
    C10_bulk_skips_phone_check sampleStore 2 0 ("Bob") ("bob@example.com")
      ("not-a-phone") [] (by decide) (by decide) rfl⟩
